import Mathlib

/-!
# Verification of the retirement calculator's projection engine

A shallow embedding, over the rationals, of the financial projection engine
in `src/components/RetirementCalculator.tsx`: the investment-vehicle catalog,
the sequence-of-returns generator (`generateSequence`, `simulateFullCycle`,
`calculateSequenceRisk`), the Monte Carlo simulator
(`runMonteCarloSimulation`), and the main `calculateRetirement` computation
(target corpus, the damped fixed-point contribution solver, the accumulation
and drawdown projections).

JavaScript numbers are modelled by `ℚ`; the only randomness in the source
(`Math.random` inside the Box–Muller transform `generateNormalRandom`) is
modelled by an oracle parameter `z : Nat → Nat → ℚ` supplying the standard
normal variate each path and year would draw, so every theorem about the
Monte Carlo simulator is quantified over all possible draws.  The calendar
year `new Date().getFullYear()` is modelled by a `baseYear` parameter.
Imperative accumulator loops are rendered as structural recursions on the
year index (the loop state after `i` iterations), or as `List.foldl` where
the loop state is not a simple function of the index.
-/

namespace RetirementCalc

/-- `InvestmentVehicle` record (source lines 14–19); `volatility` is an
optional field in the TypeScript interface, hence `Option ℚ`. -/
structure InvestmentVehicle where
  name : String
  returnRate : ℚ
  riskLevel : String
  volatility : Option ℚ
deriving Inhabited, DecidableEq

/-- The fixed five-tier catalog (source lines 102–133). -/
def investmentVehicles : List InvestmentVehicle :=
  [ { name := "Very Low Risk", returnRate := 4, riskLevel := "Very Low Risk",
      volatility := some 0 },
    { name := "Low Risk", returnRate := 7.5, riskLevel := "Low Risk",
      volatility := some 0 },
    { name := "Moderate Risk", returnRate := 12, riskLevel := "Moderate Risk",
      volatility := some 15 },
    { name := "High Risk", returnRate := 18, riskLevel := "High Risk",
      volatility := some 25 },
    { name := "Very High Risk", returnRate := 22, riskLevel := "Very High Risk",
      volatility := some 35 } ]

/-- The four sequence types `generateSequence` dispatches on; the source
selects by string tag (lines 161, 167, 173, 182). -/
inductive SeqKind where
  | bestCase
  | worstCase
  | earlyBear
  | average
deriving DecidableEq

/-- `generateSequence` (source lines 158–190): builds one return sequence of
length `years`.  `bestCase`: `(baseReturn + vol*(i/years − 0.5)*2)/100`;
`worstCase` the mirror image; `earlyBear`: the low return while
`i < years*0.3`, the high return after; `average`: `baseReturn/100`
throughout. -/
def generateSequence (kind : SeqKind) (years : Nat) (baseReturn vol : ℚ) : List ℚ :=
  match kind with
  | .bestCase =>
      (List.range years).map fun (i : Nat) =>
        (baseReturn + vol * ((i : ℚ) / (years : ℚ) - 0.5) * 2) / 100
  | .worstCase =>
      (List.range years).map fun (i : Nat) =>
        (baseReturn - vol * ((i : ℚ) / (years : ℚ) - 0.5) * 2) / 100
  | .earlyBear =>
      (List.range years).map fun (i : Nat) =>
        if (i : ℚ) < (years : ℚ) * 0.3 then
          (baseReturn - vol * 0.8) / 100
        else
          (baseReturn + vol * 0.4) / 100
  | .average =>
      (List.range years).map fun _ => baseReturn / 100

/-- Arithmetic mean of a list of rationals (sum over length). -/
def listMean (l : List ℚ) : ℚ := l.sum / (l.length : ℚ)

/-! ## Full-cycle simulation (`simulateFullCycle`, source lines 193–221) -/

/-- Portfolio value after `n` accumulation years inside `simulateFullCycle`
(source lines 197–202): each year `year` adds the contribution
`annualInvestment * (1+salaryGrowthRate)^year` and grows by the factor
`1 + preReturns[year]`. -/
def accumValue (annualInvestment salaryGrowthRate : ℚ) (preReturns : List ℚ) : Nat → ℚ
  | 0 => 0
  | n + 1 =>
      (accumValue annualInvestment salaryGrowthRate preReturns n
        + annualInvestment * (1 + salaryGrowthRate) ^ n) * (1 + preReturns.getD n 0)

/-- Pre-floor portfolio value after `n` drawdown years inside
`simulateFullCycle` (source lines 204–214), starting from `startValue`: each
year `year` withdraws `annualRetirementIncome * (1+inflationRate)^year` and
grows by `1 + postReturns[year]`.  This is the underlying (unfloored)
arithmetic; the recorded trajectory clamps each value at 0. -/
def drawdownValue (startValue annualRetirementIncome inflationRate : ℚ)
    (postReturns : List ℚ) : Nat → ℚ
  | 0 => startValue
  | n + 1 =>
      (drawdownValue startValue annualRetirementIncome inflationRate postReturns n
        - annualRetirementIncome * (1 + inflationRate) ^ n) * (1 + postReturns.getD n 0)

/-- One iteration of the retirement-phase loop of `simulateFullCycle`
(source lines 206–214): the state is the pair (current portfolio value,
`survivalYears` so far); `survivalYears` is overwritten with the loop index
only while it still equals `retirementDuration`. -/
def drawdownStep (annualRetirementIncome inflationRate : ℚ) (postReturns : List ℚ)
    (retirementDuration : Nat) (s : ℚ × Nat) (year : Nat) : ℚ × Nat :=
  let withdrawal := annualRetirementIncome * (1 + inflationRate) ^ year
  let portfolioValue := (s.1 - withdrawal) * (1 + postReturns.getD year 0)
  (portfolioValue,
    if portfolioValue ≤ 0 ∧ s.2 = retirementDuration then year else s.2)

/-- The retirement-phase loop of `simulateFullCycle` run to completion:
final (pre-floor) portfolio value and `survivalYears`. -/
def survivalFold (annualRetirementIncome inflationRate : ℚ) (postReturns : List ℚ)
    (retirementDuration : Nat) (startValue : ℚ) : ℚ × Nat :=
  (List.range retirementDuration).foldl
    (drawdownStep annualRetirementIncome inflationRate postReturns retirementDuration)
    (startValue, retirementDuration)

/-- Return value of `simulateFullCycle` (source lines 216–220). -/
structure CycleResult where
  finalValue : ℚ
  survivalYears : Nat
  values : List ℚ
deriving Inhabited

/-- `simulateFullCycle` (source lines 193–221): accumulation over
`preReturns`, then drawdown over `postReturns` tracking the depletion year;
`values` is the recorded trajectory `[0, accumulation…, max 0 drawdown…]`. -/
def simulateFullCycle (yearsUntilRetirement : Nat) (annualInvestment salaryGrowthRate : ℚ)
    (retirementDuration : Nat) (annualRetirementIncome inflationRate : ℚ)
    (preReturns postReturns : List ℚ) : CycleResult :=
  let startValue :=
    accumValue annualInvestment salaryGrowthRate preReturns yearsUntilRetirement
  let post := survivalFold annualRetirementIncome inflationRate postReturns
    retirementDuration startValue
  { finalValue := max 0 post.1
    survivalYears := post.2
    values :=
      (List.range (yearsUntilRetirement + 1)).map
        (accumValue annualInvestment salaryGrowthRate preReturns)
      ++ (List.range retirementDuration).map fun (k : Nat) =>
          max 0 (drawdownValue startValue annualRetirementIncome inflationRate
            postReturns (k + 1)) }

/-- `SequenceScenario` record (source lines 42–52). -/
structure SequenceScenario where
  name : String
  description : String
  preRetirement : List ℚ
  postRetirement : List ℚ
  finalValue : ℚ
  survivalYears : Nat
  color : String
  preRetirementReturnRate : ℚ
  postRetirementReturnRate : ℚ
deriving Inhabited

/-- `SequenceProjection` record (source lines 54–63). -/
structure SequenceProjection where
  year : Nat
  age : Nat
  isRetirementYear : Bool
  isCriticalZone : Bool
  bestCase : ℚ
  worstCase : ℚ
  earlyBear : ℚ
  average : ℚ
deriving Inhabited

/-- `calculateSequenceRisk` (source lines 144–315): the four scenarios share
one steady zero-volatility post-retirement sequence; the combined projection
covers `yearsUntilRetirement + retirementDuration + 1` rows. -/
def calculateSequenceRisk (yearsUntilRetirement : Nat)
    (annualInvestment preRetirementReturn volatility : ℚ) (retirementDuration : Nat)
    (annualRetirementIncome inflationRate salaryGrowthRate postRetirementReturn : ℚ)
    (currentAge baseYear : Nat) : List SequenceScenario × List SequenceProjection :=
  let preRetBestCase :=
    generateSequence .bestCase yearsUntilRetirement preRetirementReturn volatility
  let preRetWorstCase :=
    generateSequence .worstCase yearsUntilRetirement preRetirementReturn volatility
  let preRetEarlyBear :=
    generateSequence .earlyBear yearsUntilRetirement preRetirementReturn volatility
  let preRetAverage :=
    generateSequence .average yearsUntilRetirement preRetirementReturn volatility
  let postRetSteady := generateSequence .average retirementDuration postRetirementReturn 0
  let bestCaseResult := simulateFullCycle yearsUntilRetirement annualInvestment
    salaryGrowthRate retirementDuration annualRetirementIncome inflationRate
    preRetBestCase postRetSteady
  let worstCaseResult := simulateFullCycle yearsUntilRetirement annualInvestment
    salaryGrowthRate retirementDuration annualRetirementIncome inflationRate
    preRetWorstCase postRetSteady
  let earlyBearResult := simulateFullCycle yearsUntilRetirement annualInvestment
    salaryGrowthRate retirementDuration annualRetirementIncome inflationRate
    preRetEarlyBear postRetSteady
  let averageResult := simulateFullCycle yearsUntilRetirement annualInvestment
    salaryGrowthRate retirementDuration annualRetirementIncome inflationRate
    preRetAverage postRetSteady
  let scenarios : List SequenceScenario :=
    [ { name := "Bull Market Into Retirement"
        description := "Strong returns leading up to retirement, steady conservative returns after"
        preRetirement := preRetBestCase
        postRetirement := postRetSteady
        finalValue := bestCaseResult.finalValue
        survivalYears := bestCaseResult.survivalYears
        color := "#22c55e"
        preRetirementReturnRate := preRetirementReturn
        postRetirementReturnRate := postRetirementReturn },
      { name := "Bear Market Into Retirement"
        description := "Poor returns before retirement, steady conservative returns after"
        preRetirement := preRetWorstCase
        postRetirement := postRetSteady
        finalValue := worstCaseResult.finalValue
        survivalYears := worstCaseResult.survivalYears
        color := "#ef4444"
        preRetirementReturnRate := preRetirementReturn
        postRetirementReturnRate := postRetirementReturn },
      { name := "Early Bear, Late Bull"
        description := "Poor returns early in career, strong returns later"
        preRetirement := preRetEarlyBear
        postRetirement := postRetSteady
        finalValue := earlyBearResult.finalValue
        survivalYears := earlyBearResult.survivalYears
        color := "#f59e0b"
        preRetirementReturnRate := preRetirementReturn
        postRetirementReturnRate := postRetirementReturn },
      { name := "Steady Average Returns"
        description := "Consistent average returns throughout"
        preRetirement := preRetAverage
        postRetirement := postRetSteady
        finalValue := averageResult.finalValue
        survivalYears := averageResult.survivalYears
        color := "#3b82f6"
        preRetirementReturnRate := preRetirementReturn
        postRetirementReturnRate := postRetirementReturn } ]
  let totalYears := yearsUntilRetirement + retirementDuration + 1
  let projections : List SequenceProjection :=
    (List.range totalYears).map fun (i : Nat) =>
      { year := baseYear + i
        age := currentAge + i
        isRetirementYear := decide (i = yearsUntilRetirement)
        isCriticalZone :=
          decide ((yearsUntilRetirement : ℤ) - 5 ≤ (i : ℤ) ∧ i < yearsUntilRetirement)
        bestCase := bestCaseResult.values.getD i 0
        worstCase := worstCaseResult.values.getD i 0
        earlyBear := earlyBearResult.values.getD i 0
        average := averageResult.values.getD i 0 }
  (scenarios, projections)

/-! ## Monte Carlo simulation (`runMonteCarloSimulation`, source lines 318–374) -/

/-- `generateNormalRandom` (source lines 136–141).  The Box–Muller standard
normal variate `z0` is built from `Math.random` by transcendental functions
that have no rational counterpart, so it enters the model as the oracle
input `z`; the transform itself, `mean + z0 * stdDev`, is kept. -/
def generateNormalRandom (mean stdDev z : ℚ) : ℚ := mean + z * stdDev

/-- `numSimulations` (source line 327): fixed at 1000 paths. -/
def numSimulations : Nat := 1000

/-- Portfolio value of one Monte Carlo path after `year` years (source lines
332–340): year `i ≥ 1` adds contribution `annualInvestment * (1+g)^(i-1)`
and grows by `1 + annualReturn i` where `annualReturn i` is the random rate
drawn for that year. -/
def mcPathValue (annualInvestment salaryGrowthRate : ℚ) (annualReturn : Nat → ℚ) : Nat → ℚ
  | 0 => 0
  | year + 1 =>
      (mcPathValue annualInvestment salaryGrowthRate annualReturn year
        + annualInvestment * (1 + salaryGrowthRate) ^ year) * (1 + annualReturn (year + 1))

/-- The deterministic reference value the Monte Carlo reduction recomputes
for each year with the fixed expected return and no randomness (source
lines 352–357). -/
def mcDeterministicValue (annualInvestment salaryGrowthRate expectedReturn : ℚ) : Nat → ℚ
  | 0 => 0
  | year + 1 =>
      (mcDeterministicValue annualInvestment salaryGrowthRate expectedReturn year
        + annualInvestment * (1 + salaryGrowthRate) ^ year) * (1 + expectedReturn / 100)

/-- `MonteCarloProjection` record (source lines 30–40). -/
structure MonteCarloProjection where
  year : Nat
  age : Nat
  p10 : ℚ
  p25 : ℚ
  p50 : ℚ
  p75 : ℚ
  p90 : ℚ
  target : ℚ
  deterministic : ℚ
deriving Inhabited

/-- The 1000 recorded path trajectories (source lines 328–343): path `sim`
draws its year-`y` return through `generateNormalRandom` from the oracle
sample `z sim y`. -/
def mcSimulations (yearsUntilRetirement : Nat)
    (annualInvestment expectedReturn volatility salaryGrowthRate : ℚ)
    (z : Nat → Nat → ℚ) : List (List ℚ) :=
  (List.range numSimulations).map fun (sim : Nat) =>
    (List.range (yearsUntilRetirement + 1)).map fun (year : Nat) =>
      mcPathValue annualInvestment salaryGrowthRate
        (fun y => generateNormalRandom (expectedReturn / 100) (volatility / 100) (z sim y))
        year

/-- One percentile row of the Monte Carlo reduction (source lines 348–370):
that year's value across all paths, sorted ascending, read at nearest-rank
index `⌊numSimulations·p⌋`. -/
def mcRow (simulations : List (List ℚ))
    (annualInvestment expectedReturn targetCorpus : ℚ)
    (currentAge : Nat) (salaryGrowthRate : ℚ) (baseYear year : Nat) :
    MonteCarloProjection :=
  let yearValues :=
    (simulations.map fun sim => sim.getD year 0).insertionSort (· ≤ ·)
  { year := baseYear + year
    age := currentAge + year
    p10 := yearValues.getD (Nat.floor ((numSimulations : ℚ) * 0.1)) 0
    p25 := yearValues.getD (Nat.floor ((numSimulations : ℚ) * 0.25)) 0
    p50 := yearValues.getD (Nat.floor ((numSimulations : ℚ) * 0.5)) 0
    p75 := yearValues.getD (Nat.floor ((numSimulations : ℚ) * 0.75)) 0
    p90 := yearValues.getD (Nat.floor ((numSimulations : ℚ) * 0.9)) 0
    target := targetCorpus
    deterministic := mcDeterministicValue annualInvestment salaryGrowthRate expectedReturn year }

/-- `runMonteCarloSimulation` (source lines 318–374): 1000 paths, then one
`mcRow` per year `0..yearsUntilRetirement`. -/
def runMonteCarloSimulation (yearsUntilRetirement : Nat)
    (annualInvestment expectedReturn volatility targetCorpus : ℚ)
    (currentAge : Nat) (salaryGrowthRate : ℚ) (baseYear : Nat) (z : Nat → Nat → ℚ) :
    List MonteCarloProjection :=
  let simulations := mcSimulations yearsUntilRetirement annualInvestment expectedReturn
    volatility salaryGrowthRate z
  (List.range (yearsUntilRetirement + 1)).map
    (mcRow simulations annualInvestment expectedReturn targetCorpus currentAge
      salaryGrowthRate baseYear)

/-! ## The main calculation (`calculateRetirement`, source lines 389–591) -/

/-- `retirementDuration` (source line 416): fixed 40 years in retirement. -/
def retirementDuration : Nat := 40

/-- `inflationRate` (source line 417): fixed 3% annual inflation. -/
def inflationRate : ℚ := 0.03

/-- `YearlyProjection` record (source lines 93–100). -/
structure YearlyProjection where
  year : Nat
  age : Nat
  annualContribution : ℚ
  cumulativeContribution : ℚ
  investmentReturns : ℚ
  totalValue : ℚ
deriving Inhabited

/-- Running cumulative contribution of the accumulation projection loop
after `i` years (source lines 484–487). -/
def cumulativeContributionAt (annualInvestment annualSalaryGrowth : ℚ) : Nat → ℚ
  | 0 => 0
  | i + 1 => cumulativeContributionAt annualInvestment annualSalaryGrowth i
      + annualInvestment * (1 + annualSalaryGrowth) ^ i

/-- Running total portfolio value of the accumulation projection loop after
`i` years (source lines 484–488): `value = (value + contribution) * (1 +
returnRate/100)` with contribution `annualInvestment * (1+g)^(i-1)` in year
`i`.  `returnRate` is in percent, as in the vehicle catalog. -/
def totalValueAt (annualInvestment annualSalaryGrowth returnRate : ℚ) : Nat → ℚ
  | 0 => 0
  | i + 1 => (totalValueAt annualInvestment annualSalaryGrowth returnRate i
      + annualInvestment * (1 + annualSalaryGrowth) ^ i) * (1 + returnRate / 100)

/-- The accumulation projection rows (source lines 476–500): one row per
year `0..yearsUntilRetirement`, year 0 with zero contribution and value. -/
def yearlyProjections (yearsUntilRetirement baseYear age : Nat)
    (annualInvestment annualSalaryGrowth returnRate : ℚ) : List YearlyProjection :=
  (List.range (yearsUntilRetirement + 1)).map fun (i : Nat) =>
    { year := baseYear + i
      age := age + i
      annualContribution :=
        if i = 0 then 0 else annualInvestment * (1 + annualSalaryGrowth) ^ (i - 1)
      cumulativeContribution := cumulativeContributionAt annualInvestment annualSalaryGrowth i
      investmentReturns := totalValueAt annualInvestment annualSalaryGrowth returnRate i
        - cumulativeContributionAt annualInvestment annualSalaryGrowth i
      totalValue := totalValueAt annualInvestment annualSalaryGrowth returnRate i }

/-- The contribution solver's inner simulation (source lines 455–460): total
value after `i` years of contributing `testAnnualInvestment` grown by salary
growth, compounded at `returnRate` percent. -/
def solverTotalValue (annualSalaryGrowth returnRate testAnnualInvestment : ℚ) : Nat → ℚ
  | 0 => 0
  | i + 1 => (solverTotalValue annualSalaryGrowth returnRate testAnnualInvestment i
      + testAnnualInvestment * (1 + annualSalaryGrowth) ^ i) * (1 + returnRate / 100)

/-- `maxIterations` (source line 449): the solver's hard cap. -/
def maxIterations : Nat := 100

/-- The solver's while loop (source lines 451–470), with the remaining
iteration budget as fuel: simulate the current guess; stop converged
(`true`) when `|difference| < 1000`, else apply the damped correction
`difference / yearsUntilRetirement / 10` and continue; fuel 0 is the
iteration cap being reached (`false`), the last guess accepted. -/
def solveAux (yearsUntilRetirement : Nat)
    (annualSalaryGrowth returnRate finalTargetCorpus : ℚ) : Nat → ℚ → ℚ × Bool
  | 0, guess => (guess, false)
  | fuel + 1, guess =>
      let difference := finalTargetCorpus
        - solverTotalValue annualSalaryGrowth returnRate guess yearsUntilRetirement
      if |difference| < 1000 then (guess, true)
      else solveAux yearsUntilRetirement annualSalaryGrowth returnRate finalTargetCorpus fuel
        (guess + difference / (yearsUntilRetirement : ℚ) / 10)

/-- The contribution solver (source lines 447–472): damped fixed-point
iteration from the rough initial guess `target / years / 1.5`; returns the
accepted annual investment and whether the tolerance test passed. -/
def contributionSolve (yearsUntilRetirement : Nat)
    (annualSalaryGrowth returnRate finalTargetCorpus : ℚ) : ℚ × Bool :=
  solveAux yearsUntilRetirement annualSalaryGrowth returnRate finalTargetCorpus maxIterations
    (finalTargetCorpus / (yearsUntilRetirement : ℚ) / 1.5)

/-- `PostRetirementProjection` record (source lines 86–91). -/
structure PostRetirementProjection where
  year : Nat
  age : Nat
  withdrawal : ℚ
  portfolioValue : ℚ
deriving Inhabited

/-- Pre-floor portfolio value of the post-retirement projection loop after
`i` years (source lines 517–527): year `i ≥ 1` withdraws
`futureRetirementIncome * (1+inflationRate)^(i-1)` then grows at
`postReturnRate` percent. -/
def postPortfolioValue
    (finalTargetCorpus futureRetirementIncome inflationRate postReturnRate : ℚ) : Nat → ℚ
  | 0 => finalTargetCorpus
  | i + 1 =>
      (postPortfolioValue finalTargetCorpus futureRetirementIncome inflationRate
          postReturnRate i
        - futureRetirementIncome * (1 + inflationRate) ^ i) * (1 + postReturnRate / 100)

/-- The drawdown projection rows (source lines 516–535): one row per year
`0..retirementDuration`, the recorded value floored at 0. -/
def postRetirementProjections
    (finalTargetCorpus futureRetirementIncome inflationRate postReturnRate : ℚ)
    (retirementDuration baseYear retAge : Nat) : List PostRetirementProjection :=
  (List.range (retirementDuration + 1)).map fun (i : Nat) =>
    { year := baseYear + i
      age := retAge + i
      withdrawal :=
        if i = 0 then 0 else futureRetirementIncome * (1 + inflationRate) ^ (i - 1)
      portfolioValue := max 0 (postPortfolioValue finalTargetCorpus futureRetirementIncome
        inflationRate postReturnRate i) }

/-- The safe-withdrawal-rate corpus estimate (source line 429). -/
def corpusBySWR (futureRetirementIncome withdrawalRate : ℚ) : ℚ :=
  futureRetirementIncome / withdrawalRate

/-- The annuity present-value factor (source lines 434–436): the closed
formula when the real return is positive, the flat factor
`retirementDuration` otherwise. -/
def pvFactor (realReturnInRetirement : ℚ) (retirementDuration : Nat) : ℚ :=
  if 0 < realReturnInRetirement then
    (1 - (1 + realReturnInRetirement) ^ (-(retirementDuration : ℤ))) / realReturnInRetirement
  else (retirementDuration : ℚ)

/-- The annuity corpus estimate (source lines 433–437), with the real return
`vehicleReturnRate/100 − inflationRate`. -/
def corpusByAnnuity (futureRetirementIncome vehicleReturnRate : ℚ)
    (retirementDuration : Nat) : ℚ :=
  futureRetirementIncome * pvFactor (vehicleReturnRate / 100 - inflationRate) retirementDuration

/-- The gate on the Monte Carlo and sequence-risk simulations (source line
542): JavaScript `vehicle.volatility && vehicle.volatility > 0` — falsy when
the field is absent or 0, then the strict comparison. -/
def volatilityGate : Option ℚ → Bool
  | none => false
  | some v => (v != 0) && decide (0 < v)

/-- `CalculationResults` record (source lines 65–84). -/
structure CalculationResults where
  yearsUntilRetirement : Nat
  targetRetirementCorpus : ℚ
  monthlyInvestmentNeeded : ℚ
  annualInvestmentNeeded : ℚ
  totalContributions : ℚ
  totalReturns : ℚ
  yearlyProjections : List YearlyProjection
  postRetirementProjections : List PostRetirementProjection
  replacementRatio : ℚ
  annualRetirementIncome : ℚ
  retirementDuration : Nat
  safeWithdrawalRate : ℚ
  isUnrealistic : Bool
  incomePercentageNeeded : ℚ
  monteCarloProjections : Option (List MonteCarloProjection)
  postRetirementVehicle : InvestmentVehicle
  sequenceScenarios : Option (List SequenceScenario)
  sequenceProjections : Option (List SequenceProjection)

/-- `calculateRetirement` past input validation (source lines 415–590):
target corpus as the max of the two estimates, the iterative contribution
solver, accumulation and drawdown projections, and — only when the chosen
vehicle's volatility passes `volatilityGate` — the Monte Carlo and
sequence-risk results. -/
def calculateRetirement (age retAge : Nat) (income : ℚ) (vehicle : InvestmentVehicle)
    (replacementRatio withdrawalRate annualSalaryGrowth : ℚ)
    (postRetVehicle : InvestmentVehicle) (baseYear : Nat) (z : Nat → Nat → ℚ) :
    CalculationResults :=
  let yearsUntilRetirement := retAge - age
  let futureIncome := income * (1 + annualSalaryGrowth) ^ yearsUntilRetirement
  let annualRetirementIncome := futureIncome * replacementRatio
  let futureRetirementIncome :=
    annualRetirementIncome * (1 + inflationRate) ^ yearsUntilRetirement
  let targetRetirementCorpus := corpusBySWR futureRetirementIncome withdrawalRate
  let targetCorpusAnnuity :=
    corpusByAnnuity futureRetirementIncome vehicle.returnRate retirementDuration
  let finalTargetCorpus := max targetRetirementCorpus targetCorpusAnnuity
  let solved :=
    contributionSolve yearsUntilRetirement annualSalaryGrowth vehicle.returnRate
      finalTargetCorpus
  let annualInvestment := solved.1
  let monthlyInvestment := annualInvestment / 12
  let projections := yearlyProjections yearsUntilRetirement baseYear age annualInvestment
    annualSalaryGrowth vehicle.returnRate
  let incomePercentageNeeded := annualInvestment / income * 100
  let isUnrealistic := decide (75 < incomePercentageNeeded)
  let totalContributions :=
    (projections.getD (projections.length - 1) default).cumulativeContribution
  let totalReturns :=
    (projections.getD (projections.length - 1) default).totalValue - totalContributions
  let postProjections := postRetirementProjections finalTargetCorpus futureRetirementIncome
    inflationRate postRetVehicle.returnRate retirementDuration
    (baseYear + yearsUntilRetirement) retAge
  let gate := volatilityGate vehicle.volatility
  let monteCarlo :=
    if gate then
      some (runMonteCarloSimulation yearsUntilRetirement annualInvestment vehicle.returnRate
        (vehicle.volatility.getD 0) finalTargetCorpus age annualSalaryGrowth baseYear z)
    else none
  let sequenceResults :=
    if gate then
      some (calculateSequenceRisk yearsUntilRetirement annualInvestment vehicle.returnRate
        (vehicle.volatility.getD 0) retirementDuration futureRetirementIncome inflationRate
        annualSalaryGrowth postRetVehicle.returnRate age baseYear)
    else none
  { yearsUntilRetirement := yearsUntilRetirement
    targetRetirementCorpus := finalTargetCorpus
    monthlyInvestmentNeeded := monthlyInvestment
    annualInvestmentNeeded := annualInvestment
    totalContributions := totalContributions
    totalReturns := totalReturns
    yearlyProjections := projections
    postRetirementProjections := postProjections
    replacementRatio := replacementRatio
    annualRetirementIncome := futureRetirementIncome
    retirementDuration := retirementDuration
    safeWithdrawalRate := withdrawalRate
    isUnrealistic := isUnrealistic
    incomePercentageNeeded := incomePercentageNeeded
    monteCarloProjections := monteCarlo
    postRetirementVehicle := postRetVehicle
    sequenceScenarios := sequenceResults.map Prod.fst
    sequenceProjections := sequenceResults.map Prod.snd }

/-! ## Helper lemmas -/

lemma getD_range_map {α : Type} (f : Nat → α) {n i : Nat} (d : α) (h : i < n) :
    ((List.range n).map f).getD i d = f i := by
  have hl : i < ((List.range n).map f).length := by simpa using h
  rw [List.getD_eq_getElem _ _ hl]
  simp

/-- The solver's inner simulation computes the same total as the
accumulation projection's running value. -/
lemma solverTotalValue_eq_totalValueAt (g rate inv : ℚ) (n : Nat) :
    solverTotalValue g rate inv n = totalValueAt inv g rate n := by
  induction n with
  | zero => rfl
  | succ n ih => rw [solverTotalValue, totalValueAt, ih]

/-- When the solver reports convergence, the guess it returns is the one
whose simulated total was within tolerance of the target. -/
lemma solveAux_converged (yearsUntilRetirement : Nat) (g rate target : ℚ) (fuel : Nat)
    (guess : ℚ) (h : (solveAux yearsUntilRetirement g rate target fuel guess).2 = true) :
    |target - solverTotalValue g rate
      (solveAux yearsUntilRetirement g rate target fuel guess).1 yearsUntilRetirement|
      < 1000 := by
  induction fuel generalizing guess with
  | zero => simp [solveAux] at h
  | succ n ih =>
      simp only [solveAux] at h ⊢
      by_cases hc : |target - solverTotalValue g rate guess yearsUntilRetirement| < 1000
      · simpa only [if_pos hc] using hc
      · simp only [if_neg hc] at h ⊢
        exact ih _ h

/-- Invariant of the retirement-phase loop of `simulateFullCycle` after `n`
iterations: the first state component is the pre-floor drawdown value, and
the second either still equals `retirementDuration` with no depletion seen,
or is the first index whose post-step value was non-positive. -/
lemma survivalFold_invariant (inc infl : ℚ) (post : List ℚ) (dur : Nat) (v0 : ℚ) :
    ∀ n, n ≤ dur →
      (((List.range n).foldl (drawdownStep inc infl post dur) (v0, dur)).1
          = drawdownValue v0 inc infl post n)
      ∧ ((((List.range n).foldl (drawdownStep inc infl post dur) (v0, dur)).2 = dur
            ∧ ∀ k < n, 0 < drawdownValue v0 inc infl post (k + 1))
        ∨ (((List.range n).foldl (drawdownStep inc infl post dur) (v0, dur)).2 < n
            ∧ drawdownValue v0 inc infl post
                (((List.range n).foldl (drawdownStep inc infl post dur) (v0, dur)).2 + 1) ≤ 0
            ∧ ∀ j < ((List.range n).foldl (drawdownStep inc infl post dur) (v0, dur)).2,
                0 < drawdownValue v0 inc infl post (j + 1))) := by
  intro n
  induction n with
  | zero =>
      intro _
      refine ⟨rfl, Or.inl ⟨rfl, ?_⟩⟩
      intro k hk
      exact absurd hk (Nat.not_lt_zero k)
  | succ n ih =>
      intro hn
      have hn' : n ≤ dur := Nat.le_of_succ_le hn
      obtain ⟨h1, h2⟩ := ih hn'
      rw [List.range_succ, List.foldl_append, List.foldl_cons, List.foldl_nil]
      set s := (List.range n).foldl (drawdownStep inc infl post dur) (v0, dur) with hs
      have hpv : (s.1 - inc * (1 + infl) ^ n) * (1 + post.getD n 0)
          = drawdownValue v0 inc infl post (n + 1) := by
        rw [drawdownValue, h1]
      rcases h2 with ⟨hA1, hA2⟩ | ⟨hB1, hB2, hB3⟩
      · by_cases hd : drawdownValue v0 inc infl post (n + 1) ≤ 0
        · have hc : (s.1 - inc * (1 + infl) ^ n) * (1 + post.getD n 0) ≤ 0 ∧ s.2 = dur := by
            rw [hpv]; exact ⟨hd, hA1⟩
          simp only [drawdownStep, if_pos hc]
          refine ⟨hpv, Or.inr ⟨Nat.lt_succ_self n, ?_, ?_⟩⟩
          · simpa using hd
          · intro j hj
            exact hA2 j hj
        · have hc : ¬ ((s.1 - inc * (1 + infl) ^ n) * (1 + post.getD n 0) ≤ 0 ∧ s.2 = dur) := by
            rw [hpv]
            intro hx
            exact hd hx.1
          simp only [drawdownStep, if_neg hc]
          refine ⟨hpv, Or.inl ⟨hA1, ?_⟩⟩
          intro k hk
          rcases Nat.lt_succ_iff_lt_or_eq.1 hk with hk' | rfl
          · exact hA2 k hk'
          · exact lt_of_not_le hd
      · have hsd : s.2 ≠ dur := Nat.ne_of_lt (lt_of_lt_of_le hB1 hn')
        have hc : ¬ ((s.1 - inc * (1 + infl) ^ n) * (1 + post.getD n 0) ≤ 0 ∧ s.2 = dur) := by
          intro hx
          exact hsd hx.2
        simp only [drawdownStep, if_neg hc]
        exact ⟨hpv, Or.inr ⟨Nat.lt_succ_of_lt hB1, hB2, hB3⟩⟩

lemma getD_sorted_mono {l : List ℚ} (hs : l.Sorted (· ≤ ·)) {i j : Nat} (hij : i ≤ j)
    (hj : j < l.length) : l.getD i 0 ≤ l.getD j 0 := by
  have hi : i < l.length := lt_of_le_of_lt hij hj
  rw [List.getD_eq_getElem _ _ hi, List.getD_eq_getElem _ _ hj]
  rcases eq_or_lt_of_le hij with rfl | hlt
  · exact le_refl _
  · have := hs.rel_get_of_lt (a := ⟨i, hi⟩) (b := ⟨j, hj⟩) hlt
    simpa using this

/-- The five percentile fields of one Monte Carlo row are read at increasing
indices of one ascending sort, as long as there really are 1000 paths. -/
lemma mcRow_percentiles_ordered (simulations : List (List ℚ))
    (hsim : simulations.length = numSimulations)
    (annualInvestment expectedReturn targetCorpus : ℚ)
    (currentAge : Nat) (salaryGrowthRate : ℚ) (baseYear year : Nat) :
    (mcRow simulations annualInvestment expectedReturn targetCorpus currentAge
      salaryGrowthRate baseYear year).p10
      ≤ (mcRow simulations annualInvestment expectedReturn targetCorpus currentAge
        salaryGrowthRate baseYear year).p25
    ∧ (mcRow simulations annualInvestment expectedReturn targetCorpus currentAge
        salaryGrowthRate baseYear year).p25
      ≤ (mcRow simulations annualInvestment expectedReturn targetCorpus currentAge
        salaryGrowthRate baseYear year).p50
    ∧ (mcRow simulations annualInvestment expectedReturn targetCorpus currentAge
        salaryGrowthRate baseYear year).p50
      ≤ (mcRow simulations annualInvestment expectedReturn targetCorpus currentAge
        salaryGrowthRate baseYear year).p75
    ∧ (mcRow simulations annualInvestment expectedReturn targetCorpus currentAge
        salaryGrowthRate baseYear year).p75
      ≤ (mcRow simulations annualInvestment expectedReturn targetCorpus currentAge
        salaryGrowthRate baseYear year).p90 := by
  have hsorted := List.sorted_insertionSort (α := ℚ) (· ≤ ·)
    (simulations.map fun sim => sim.getD year 0)
  have hlen : (((simulations.map fun sim => sim.getD year 0)).insertionSort
      (· ≤ ·)).length = numSimulations := by
    rw [(List.perm_insertionSort _ _).length_eq, List.length_map, hsim]
  have i10 : Nat.floor ((numSimulations : ℚ) * 0.1) = 100 := by norm_num [numSimulations]
  have i25 : Nat.floor ((numSimulations : ℚ) * 0.25) = 250 := by norm_num [numSimulations]
  have i50 : Nat.floor ((numSimulations : ℚ) * 0.5) = 500 := by norm_num [numSimulations]
  have i75 : Nat.floor ((numSimulations : ℚ) * 0.75) = 750 := by norm_num [numSimulations]
  have i90 : Nat.floor ((numSimulations : ℚ) * 0.9) = 900 := by norm_num [numSimulations]
  simp only [mcRow]
  rw [i10, i25, i50, i75, i90]
  refine ⟨?_, ?_, ?_, ?_⟩ <;>
    exact getD_sorted_mono hsorted (by norm_num) (by rw [hlen]; norm_num [numSimulations])

lemma mcDeterministicValue_eq_totalValueAt (inv g er : ℚ) (n : Nat) :
    mcDeterministicValue inv g er n = totalValueAt inv g er n := by
  induction n with
  | zero => rfl
  | succ n ih => rw [mcDeterministicValue, totalValueAt, ih]

/-- The JavaScript gate `volatility && volatility > 0` passes exactly when
the optional field holds a strictly positive value. -/
lemma volatilityGate_iff (vol : Option ℚ) :
    volatilityGate vol = true ↔ ∃ v, vol = some v ∧ 0 < v := by
  cases vol with
  | none => simp [volatilityGate]
  | some v =>
      rw [volatilityGate]
      rw [Bool.and_eq_true, bne_iff_ne, decide_eq_true_iff]
      constructor
      · rintro ⟨-, hpos⟩
        exact ⟨v, rfl, hpos⟩
      · rintro ⟨w, hw, hpos⟩
        cases hw
        exact ⟨ne_of_gt hpos, hpos⟩

/-- Every recorded drawdown row clamps its value at 0. -/
lemma postRetirementProjections_forall_nonneg
    (finalTargetCorpus futureRetirementIncome inflationRate postReturnRate : ℚ)
    (retirementDuration baseYear retAge : Nat) :
    (postRetirementProjections finalTargetCorpus futureRetirementIncome inflationRate
      postReturnRate retirementDuration baseYear retAge).Forall
        (fun r => 0 ≤ r.portfolioValue) := by
  rw [List.forall_iff_forall_mem]
  intro r hr
  rcases List.mem_map.1 hr with ⟨i, -, rfl⟩
  exact le_max_left _ _

/-- One drawdown step of the post-retirement projection keeps a non-positive
pre-floor value non-positive: the withdrawal is non-negative and the growth
factor positive. -/
lemma postPortfolioValue_step_nonpos
    (finalTargetCorpus futureRetirementIncome inflationRate postReturnRate : ℚ)
    (hr : -100 < postReturnRate)
    (hw : ∀ k : Nat, 0 ≤ futureRetirementIncome * (1 + inflationRate) ^ k)
    (k : Nat)
    (hk : postPortfolioValue finalTargetCorpus futureRetirementIncome inflationRate
      postReturnRate k ≤ 0) :
    postPortfolioValue finalTargetCorpus futureRetirementIncome inflationRate
      postReturnRate (k + 1) ≤ 0 := by
  have hrate : (0 : ℚ) ≤ 1 + postReturnRate / 100 := by linarith
  rw [postPortfolioValue]
  have hx : postPortfolioValue finalTargetCorpus futureRetirementIncome inflationRate
      postReturnRate k - futureRetirementIncome * (1 + inflationRate) ^ k ≤ 0 := by
    linarith [hw k]
  calc (postPortfolioValue finalTargetCorpus futureRetirementIncome inflationRate
          postReturnRate k - futureRetirementIncome * (1 + inflationRate) ^ k)
        * (1 + postReturnRate / 100)
      ≤ 0 * (1 + postReturnRate / 100) := mul_le_mul_of_nonneg_right hx hrate
    _ = 0 := by ring

lemma postPortfolioValue_nonpos_mono
    (finalTargetCorpus futureRetirementIncome inflationRate postReturnRate : ℚ)
    (hr : -100 < postReturnRate)
    (hw : ∀ k : Nat, 0 ≤ futureRetirementIncome * (1 + inflationRate) ^ k)
    (i : Nat)
    (hi : postPortfolioValue finalTargetCorpus futureRetirementIncome inflationRate
      postReturnRate i ≤ 0) :
    ∀ m, postPortfolioValue finalTargetCorpus futureRetirementIncome inflationRate
      postReturnRate (i + m) ≤ 0 := by
  intro m
  induction m with
  | zero => exact hi
  | succ m ih =>
      exact postPortfolioValue_step_nonpos _ _ _ _ hr hw (i + m) ih

/-! ## The claims -/

/-- C1: for every valid input (`yearsUntilRetirement ≥ 1`), the contribution
solver's loop terminates with an `annualInvestment` such that re-running the
accumulation formula with it lands within 1000 currency units of the target
corpus, OR the loop performed its full 100 iterations (reported convergence
flag `false`); at least one of the two always holds. -/
theorem contributionSolver_within_tolerance_or_cap (yearsUntilRetirement : Nat)
    (h : 1 ≤ yearsUntilRetirement) (annualSalaryGrowth returnRate finalTargetCorpus : ℚ) :
    |finalTargetCorpus - totalValueAt
        (contributionSolve yearsUntilRetirement annualSalaryGrowth returnRate
          finalTargetCorpus).1
        annualSalaryGrowth returnRate yearsUntilRetirement| < 1000
    ∨ (contributionSolve yearsUntilRetirement annualSalaryGrowth returnRate
        finalTargetCorpus).2 = false := by
  rcases Bool.eq_false_or_eq_true
      (contributionSolve yearsUntilRetirement annualSalaryGrowth returnRate
        finalTargetCorpus).2 with hb | hb
  · refine Or.inl ?_
    have hcv := solveAux_converged yearsUntilRetirement annualSalaryGrowth returnRate
      finalTargetCorpus maxIterations
      (finalTargetCorpus / (yearsUntilRetirement : ℚ) / 1.5) hb
    rwa [solverTotalValue_eq_totalValueAt] at hcv
  · exact Or.inr hb

/-- C1 witness: the solver at a concrete input (one year, zero rates, target
600 — the initial guess 400 is already within tolerance). -/
theorem contributionSolver_tolerance_witness :
    |(600 : ℚ) - totalValueAt (contributionSolve 1 0 0 600).1 0 0 1| < 1000
    ∨ (contributionSolve 1 0 0 600).2 = false :=
  contributionSolver_within_tolerance_or_cap 1 (by norm_num) 0 0 600

/-- C2: at `years = 2, baseReturn = 12, vol = 15` the arithmetic mean of the
`bestCase` sequence is 0.045 and of the `worstCase` sequence 0.195, not the
nominal 0.12 — the linear ramps are biased by `∓vol/years` (the code's own
comment says "same average"); only the `average` sequence has the nominal
mean. -/
theorem generateSequence_mean_at_failing_input :
    listMean (generateSequence .bestCase 2 12 15) = 9/200
    ∧ listMean (generateSequence .worstCase 2 12 15) = 39/200
    ∧ listMean (generateSequence .average 2 12 15) = 12/100
    ∧ (9/200 : ℚ) ≠ 12/100 ∧ (39/200 : ℚ) ≠ 12/100 := by
  norm_num [listMean, generateSequence, List.range_succ]

/-- C3 counterexample: at `years = 2`, `⌊years×0.3⌋ = 0`, so the claim says
every index (index 0 included) carries the high return `(12+15×0.4)/100`;
the code gives index 0 the low return `(12−15×0.8)/100 = 0`. -/
theorem earlyBear_floor_counterexample :
    Nat.floor ((2 : ℚ) * 0.3) = 0
    ∧ (generateSequence .earlyBear 2 12 15).getD 0 0 ≠ (12 + 15 * (0.4 : ℚ)) / 100 := by
  norm_num [generateSequence, List.range_succ]

/-- C3 amended: the `earlyBear` sequence assigns the low return
`(baseReturn − 0.8×vol)/100` to exactly the indices `i` with
`i < years×0.3` as a strict real comparison (`10·i < 3·years`), i.e. to
`⌈years×0.3⌉` indices when `years×0.3` is not an integer — not
`⌊years×0.3⌋` — and the high return `(baseReturn + 0.4×vol)/100` to every
remaining index. -/
theorem earlyBear_strict_boundary (years : Nat) (baseReturn vol : ℚ) (i : Nat)
    (h : i < years) :
    (generateSequence .earlyBear years baseReturn vol).getD i 0 =
      if 10 * i < 3 * years then (baseReturn - vol * 0.8) / 100
      else (baseReturn + vol * 0.4) / 100 := by
  rw [generateSequence, getD_range_map _ _ h]
  have key : ((i : ℚ) < (years : ℚ) * 0.3) ↔ 10 * i < 3 * years := by
    rw [← Nat.cast_lt (α := ℚ)]
    push_cast
    constructor <;> intro hh <;> nlinarith
  simp only [key]

/-- C3 witness: index 1 of the two-year sequence falls in the high-return
regime. -/
theorem earlyBear_strict_boundary_witness :
    (generateSequence .earlyBear 2 12 15).getD 1 0 =
      if 10 * 1 < 3 * 2 then ((12 : ℚ) - 15 * 0.8) / 100
      else ((12 : ℚ) + 15 * 0.4) / 100 :=
  earlyBear_strict_boundary 2 12 15 1 (by norm_num)

/-- C4: a full-cycle scenario's `survivalYears` equals the retirement
duration iff the pre-floor drawdown trajectory never reaches a value ≤ 0;
otherwise it is the first drawdown loop index whose (pre-floor) portfolio
value is ≤ 0 (with every earlier value positive). -/
theorem survivalYears_depletion_characterization (yearsUntilRetirement : Nat)
    (annualInvestment salaryGrowthRate : ℚ) (retirementDuration : Nat)
    (annualRetirementIncome inflationRate : ℚ) (preReturns postReturns : List ℚ) :
    ((simulateFullCycle yearsUntilRetirement annualInvestment salaryGrowthRate
        retirementDuration annualRetirementIncome inflationRate preReturns
        postReturns).survivalYears = retirementDuration
      ↔ ∀ k < retirementDuration,
          0 < drawdownValue
            (accumValue annualInvestment salaryGrowthRate preReturns yearsUntilRetirement)
            annualRetirementIncome inflationRate postReturns (k + 1))
    ∧ ((simulateFullCycle yearsUntilRetirement annualInvestment salaryGrowthRate
          retirementDuration annualRetirementIncome inflationRate preReturns
          postReturns).survivalYears = retirementDuration
      ∨ ((simulateFullCycle yearsUntilRetirement annualInvestment salaryGrowthRate
            retirementDuration annualRetirementIncome inflationRate preReturns
            postReturns).survivalYears < retirementDuration
          ∧ drawdownValue
              (accumValue annualInvestment salaryGrowthRate preReturns yearsUntilRetirement)
              annualRetirementIncome inflationRate postReturns
              ((simulateFullCycle yearsUntilRetirement annualInvestment salaryGrowthRate
                retirementDuration annualRetirementIncome inflationRate preReturns
                postReturns).survivalYears + 1) ≤ 0
          ∧ ∀ j < (simulateFullCycle yearsUntilRetirement annualInvestment salaryGrowthRate
                retirementDuration annualRetirementIncome inflationRate preReturns
                postReturns).survivalYears,
              0 < drawdownValue
                (accumValue annualInvestment salaryGrowthRate preReturns yearsUntilRetirement)
                annualRetirementIncome inflationRate postReturns (j + 1))) := by
  have hinv := survivalFold_invariant annualRetirementIncome inflationRate postReturns
    retirementDuration
    (accumValue annualInvestment salaryGrowthRate preReturns yearsUntilRetirement)
    retirementDuration (le_refl _)
  have hsv : (simulateFullCycle yearsUntilRetirement annualInvestment salaryGrowthRate
      retirementDuration annualRetirementIncome inflationRate preReturns
      postReturns).survivalYears
      = ((List.range retirementDuration).foldl
          (drawdownStep annualRetirementIncome inflationRate postReturns retirementDuration)
          (accumValue annualInvestment salaryGrowthRate preReturns yearsUntilRetirement,
            retirementDuration)).2 := rfl
  rw [hsv]
  obtain ⟨-, h2⟩ := hinv
  rcases h2 with ⟨hA1, hA2⟩ | ⟨hB1, hB2, hB3⟩
  · constructor
    · constructor
      · intro _
        exact hA2
      · intro _
        exact hA1
    · exact Or.inl hA1
  · constructor
    · constructor
      · intro hEq
        exact absurd hEq (Nat.ne_of_lt hB1)
      · intro hnever
        exact absurd hB2 (not_le.2 (hnever _ hB1))
    · exact Or.inr ⟨hB1, hB2, hB3⟩

/-- C5: in every Monte Carlo projection row — for any number of years, any
rates and any sequence of random draws — the recorded percentiles are
ordered `p10 ≤ p25 ≤ p50 ≤ p75 ≤ p90`. -/
theorem monteCarlo_percentiles_ordered (yearsUntilRetirement : Nat)
    (annualInvestment expectedReturn volatility targetCorpus : ℚ)
    (currentAge : Nat) (salaryGrowthRate : ℚ) (baseYear : Nat) (z : Nat → Nat → ℚ) :
    (runMonteCarloSimulation yearsUntilRetirement annualInvestment expectedReturn volatility
      targetCorpus currentAge salaryGrowthRate baseYear z).Forall
        (fun row => row.p10 ≤ row.p25 ∧ row.p25 ≤ row.p50
          ∧ row.p50 ≤ row.p75 ∧ row.p75 ≤ row.p90) := by
  rw [List.forall_iff_forall_mem]
  intro row hrow
  rw [runMonteCarloSimulation] at hrow
  obtain ⟨year, -, rfl⟩ := List.mem_map.1 hrow
  have hsim : (mcSimulations yearsUntilRetirement annualInvestment expectedReturn
      volatility salaryGrowthRate z).length = numSimulations := by
    rw [mcSimulations, List.length_map, List.length_range]
  exact mcRow_percentiles_ordered _ hsim _ _ _ _ _ _ _

/-- C6: every recorded `PostRetirementProjection.portfolioValue` of the
generated drawdown series is ≥ 0 — the value is floored at 0 after each
step even when the underlying arithmetic goes negative. -/
theorem postRetirement_portfolio_nonneg (age retAge : Nat) (income : ℚ)
    (vehicle : InvestmentVehicle) (replacementRatio withdrawalRate annualSalaryGrowth : ℚ)
    (postRetVehicle : InvestmentVehicle) (baseYear : Nat) (z : Nat → Nat → ℚ) :
    ((calculateRetirement age retAge income vehicle replacementRatio withdrawalRate
      annualSalaryGrowth postRetVehicle baseYear z).postRetirementProjections).Forall
        (fun r => 0 ≤ r.portfolioValue) := by
  unfold calculateRetirement
  exact postRetirementProjections_forall_nonneg _ _ _ _ _ _ _

/-- C7: the result carries `monteCarloProjections` and `sequenceScenarios`
iff the chosen pre-retirement vehicle's volatility is strictly positive; in
particular both fields are `none` for the Very Low Risk and Low Risk catalog
vehicles (volatility 0). -/
theorem simulations_present_iff_positive_volatility (age retAge : Nat) (income : ℚ)
    (vehicle : InvestmentVehicle) (replacementRatio withdrawalRate annualSalaryGrowth : ℚ)
    (postRetVehicle : InvestmentVehicle) (baseYear : Nat) (z : Nat → Nat → ℚ) :
    ((calculateRetirement age retAge income vehicle replacementRatio withdrawalRate
        annualSalaryGrowth postRetVehicle baseYear z).monteCarloProjections.isSome = true
      ↔ ∃ v, vehicle.volatility = some v ∧ 0 < v)
    ∧ ((calculateRetirement age retAge income vehicle replacementRatio withdrawalRate
        annualSalaryGrowth postRetVehicle baseYear z).sequenceScenarios.isSome = true
      ↔ ∃ v, vehicle.volatility = some v ∧ 0 < v)
    ∧ (calculateRetirement age retAge income (investmentVehicles.getD 0 default)
        replacementRatio withdrawalRate annualSalaryGrowth postRetVehicle baseYear
        z).monteCarloProjections = none
    ∧ (calculateRetirement age retAge income (investmentVehicles.getD 0 default)
        replacementRatio withdrawalRate annualSalaryGrowth postRetVehicle baseYear
        z).sequenceScenarios = none
    ∧ (calculateRetirement age retAge income (investmentVehicles.getD 1 default)
        replacementRatio withdrawalRate annualSalaryGrowth postRetVehicle baseYear
        z).monteCarloProjections = none
    ∧ (calculateRetirement age retAge income (investmentVehicles.getD 1 default)
        replacementRatio withdrawalRate annualSalaryGrowth postRetVehicle baseYear
        z).sequenceScenarios = none := by
  have hmc : ∀ vh : InvestmentVehicle,
      (calculateRetirement age retAge income vh replacementRatio withdrawalRate
        annualSalaryGrowth postRetVehicle baseYear z).monteCarloProjections.isSome
      = volatilityGate vh.volatility := by
    intro vh
    rw [calculateRetirement]
    cases hg : volatilityGate vh.volatility <;> simp [hg]
  have hss : ∀ vh : InvestmentVehicle,
      (calculateRetirement age retAge income vh replacementRatio withdrawalRate
        annualSalaryGrowth postRetVehicle baseYear z).sequenceScenarios.isSome
      = volatilityGate vh.volatility := by
    intro vh
    rw [calculateRetirement]
    cases hg : volatilityGate vh.volatility <;> simp [hg]
  refine ⟨?_, ?_, ?_, ?_, ?_, ?_⟩
  · rw [hmc, volatilityGate_iff]
  · rw [hss, volatilityGate_iff]
  · have h0 : volatilityGate (investmentVehicles.getD 0 default).volatility = false := by
      norm_num [investmentVehicles, volatilityGate]
    have hx := hmc (investmentVehicles.getD 0 default)
    rw [h0] at hx
    exact Option.not_isSome_iff_eq_none.1 (by rw [hx]; simp)
  · have h0 : volatilityGate (investmentVehicles.getD 0 default).volatility = false := by
      norm_num [investmentVehicles, volatilityGate]
    have hx := hss (investmentVehicles.getD 0 default)
    rw [h0] at hx
    exact Option.not_isSome_iff_eq_none.1 (by rw [hx]; simp)
  · have h1 : volatilityGate (investmentVehicles.getD 1 default).volatility = false := by
      norm_num [investmentVehicles, volatilityGate]
    have hx := hmc (investmentVehicles.getD 1 default)
    rw [h1] at hx
    exact Option.not_isSome_iff_eq_none.1 (by rw [hx]; simp)
  · have h1 : volatilityGate (investmentVehicles.getD 1 default).volatility = false := by
      norm_num [investmentVehicles, volatilityGate]
    have hx := hss (investmentVehicles.getD 1 default)
    rw [h1] at hx
    exact Option.not_isSome_iff_eq_none.1 (by rw [hx]; simp)

/-- C8: the target corpus equals `max(corpusBySWR, corpusByAnnuity)` — with
`futureRetirementIncome = income·(1+g)^y·replacementRatio·(1+inflation)^y` —
and is therefore ≥ both estimates. -/
theorem targetCorpus_is_max_of_estimates (age retAge : Nat) (income : ℚ)
    (vehicle : InvestmentVehicle) (replacementRatio withdrawalRate annualSalaryGrowth : ℚ)
    (postRetVehicle : InvestmentVehicle) (baseYear : Nat) (z : Nat → Nat → ℚ) :
    (calculateRetirement age retAge income vehicle replacementRatio withdrawalRate
        annualSalaryGrowth postRetVehicle baseYear z).targetRetirementCorpus
      = max (corpusBySWR (income * (1 + annualSalaryGrowth) ^ (retAge - age)
            * replacementRatio * (1 + inflationRate) ^ (retAge - age)) withdrawalRate)
          (corpusByAnnuity (income * (1 + annualSalaryGrowth) ^ (retAge - age)
            * replacementRatio * (1 + inflationRate) ^ (retAge - age)) vehicle.returnRate
            retirementDuration)
    ∧ corpusBySWR (income * (1 + annualSalaryGrowth) ^ (retAge - age)
        * replacementRatio * (1 + inflationRate) ^ (retAge - age)) withdrawalRate
      ≤ (calculateRetirement age retAge income vehicle replacementRatio withdrawalRate
          annualSalaryGrowth postRetVehicle baseYear z).targetRetirementCorpus
    ∧ corpusByAnnuity (income * (1 + annualSalaryGrowth) ^ (retAge - age)
        * replacementRatio * (1 + inflationRate) ^ (retAge - age)) vehicle.returnRate
        retirementDuration
      ≤ (calculateRetirement age retAge income vehicle replacementRatio withdrawalRate
          annualSalaryGrowth postRetVehicle baseYear z).targetRetirementCorpus := by
  exact ⟨rfl, le_max_left _ _, le_max_right _ _⟩

/-- C9: the deterministic reference value of the Monte Carlo row for year
`y` equals the `totalValue` of the deterministic accumulation projection row
for the same year, given the same annual investment, salary growth rate and
expected return — for every choice of random draws and display parameters. -/
theorem monteCarlo_deterministic_matches_yearly (yearsUntilRetirement : Nat)
    (annualInvestment expectedReturn volatility targetCorpus : ℚ)
    (currentAge : Nat) (salaryGrowthRate : ℚ) (baseYear : Nat) (z : Nat → Nat → ℚ)
    (projBaseYear projAge : Nat) (y : Nat) (hy : y ≤ yearsUntilRetirement) :
    ((runMonteCarloSimulation yearsUntilRetirement annualInvestment expectedReturn
        volatility targetCorpus currentAge salaryGrowthRate baseYear z).getD y
        default).deterministic
      = ((yearlyProjections yearsUntilRetirement projBaseYear projAge annualInvestment
          salaryGrowthRate expectedReturn).getD y default).totalValue := by
  have hy' : y < yearsUntilRetirement + 1 := Nat.lt_succ_of_le hy
  rw [runMonteCarloSimulation, yearlyProjections]
  rw [getD_range_map _ _ hy', getD_range_map _ _ hy']
  simp only [mcRow]
  exact mcDeterministicValue_eq_totalValueAt _ _ _ _

/-- C9 witness: the zero-year, zero-input instance. -/
theorem monteCarlo_deterministic_matches_yearly_witness :
    ((runMonteCarloSimulation 0 0 0 0 0 0 0 0 (fun _ _ => 0)).getD 0
        default).deterministic
      = ((yearlyProjections 0 0 0 0 0 0).getD 0 default).totalValue :=
  monteCarlo_deterministic_matches_yearly 0 0 0 0 0 0 0 0 (fun _ _ => 0) 0 0 0
    (Nat.zero_le 0)

/-- C10: depletion is absorbing in the recorded drawdown series — when the
post-retirement return rate exceeds −100% and every withdrawal is
non-negative, a recorded `portfolioValue` of 0 forces every later recorded
`portfolioValue` to 0 as well. -/
theorem depletion_absorbing
    (finalTargetCorpus futureRetirementIncome inflationRate postReturnRate : ℚ)
    (retirementDuration baseYear retAge : Nat) (i j : Nat)
    (hr : -100 < postReturnRate)
    (hw : ∀ k : Nat, 0 ≤ futureRetirementIncome * (1 + inflationRate) ^ k)
    (hij : i ≤ j)
    (h0 : ((postRetirementProjections finalTargetCorpus futureRetirementIncome inflationRate
        postReturnRate retirementDuration baseYear retAge).getD i
        default).portfolioValue = 0) :
    ((postRetirementProjections finalTargetCorpus futureRetirementIncome inflationRate
        postReturnRate retirementDuration baseYear retAge).getD j
        default).portfolioValue = 0 := by
  by_cases hjr : j < retirementDuration + 1
  · have hir : i < retirementDuration + 1 := lt_of_le_of_lt hij hjr
    rw [postRetirementProjections, getD_range_map _ _ hir] at h0
    rw [postRetirementProjections, getD_range_map _ _ hjr]
    dsimp only at h0 ⊢
    have hppv : postPortfolioValue finalTargetCorpus futureRetirementIncome inflationRate
        postReturnRate i ≤ 0 := by
      by_contra hpos
      push_neg at hpos
      rw [max_eq_right (le_of_lt hpos)] at h0
      exact absurd h0 (ne_of_gt hpos)
    obtain ⟨m, rfl⟩ : ∃ m, j = i + m := ⟨j - i, by omega⟩
    exact max_eq_left (postPortfolioValue_nonpos_mono _ _ _ _ hr hw i hppv m)
  · rw [List.getD_eq_default]
    · rfl
    · rw [postRetirementProjections, List.length_map, List.length_range]
      omega

/-- C10 witness: a depleted-from-the-start concrete series (zero corpus,
zero withdrawals) stays at 0. -/
theorem depletion_absorbing_witness :
    ((postRetirementProjections 0 0 0 4 1 0 65).getD 1 default).portfolioValue = 0 :=
  depletion_absorbing 0 0 0 4 1 0 65 0 1 (by norm_num) (fun k => by simp) (by norm_num)
    (by norm_num [postRetirementProjections, List.range_succ, postPortfolioValue])

end RetirementCalc
